import Mathlib

/-!
Shallow embedding of the SimpleLPR-samples repository (two Python programs:
`simplelpr_tracking_demo.py`, the video tracking orchestrator, and
`simplelpr_demo.py`, the basic single-image demo) together with proofs
settling the specification claims about them.

Numeric conventions: timestamps and confidences (Python floats used only as
data, never in arithmetic that could overflow) are modelled as rationals;
frame ids as integers; sequence numbers as naturals.
-/

namespace SLPR

/-! ## Data model (mirrors the SimpleLPR library objects the code reads) -/

/-- Bounding box as read from the library (`left`, `top`, `width`, `height`). -/
structure Rect where
  left : Int
  top : Int
  width : Int
  height : Int
deriving DecidableEq, Repr

/-- A 2-D vertex of the plate region polygon. -/
structure Point where
  x : Int
  y : Int
deriving DecidableEq, Repr

/-- One glyph element of a match (`elem.glyph`, `elem.confidence`, `elem.boundingBox`). -/
structure GlyphElem where
  glyph : String
  confidence : ℚ
  boundingBox : Rect
deriving DecidableEq, Repr

/-- One recognition match of a candidate (`match.text`, `match.country`,
`match.countryISO`, `match.confidence`, `match.elements`). An unmatched raw
reading has `countryISO = ""` (the code tests `bool(match.countryISO)`). -/
structure PlateMatch where
  text : String
  country : String
  countryISO : String
  confidence : ℚ
  elements : List GlyphElem
deriving DecidableEq, Repr

/-- A per-frame plate detection candidate as the code reads it. -/
structure Candidate where
  darkOnLight : Bool
  plateDetectionConfidence : ℚ
  boundingBox : Rect
  plateRegionVertices : List Point
  matches' : List PlateMatch
deriving DecidableEq, Repr

/-- A video frame as the orchestrator sees it (`frame.sequenceNumber`,
`frame.timestamp`; the pixel buffer is irrelevant to every claim). -/
structure VideoFrame where
  sequenceNumber : Nat
  timestamp : ℚ
deriving DecidableEq, Repr

/-- A completed analysis result polled from the processor pool
(`result.requestId`, `result.errorInfo`, `result.candidates`). -/
structure AnalysisResult where
  requestId : Nat
  errorInfo : Option String
  candidates : List Candidate
deriving DecidableEq, Repr

/-- A closed or newly confirmed track object handed back by the library
tracker; fields are exactly those the Python code reads, plus
`specFrameCount`. `specFrameCount` is modelled from the spec: the spec's
Track data model carries `frameCount`, "the number of matching detections
accumulated by the track"; SimpleLPR's `TrackedPlateCandidate` does not
expose such a field to this code, and the code never reads one. It is a
ghost field used only to state the spec's claim C4 against the code. -/
structure TrackedPlateCandidate where
  firstDetectionFrameId : Int
  firstDetectionTimestamp : ℚ
  newestDetectionFrameId : Int
  newestDetectionTimestamp : ℚ
  representativeFrameId : Int
  representativeTimestamp : ℚ
  representativeCandidate : Candidate
  hasThumbnail : Bool
  specFrameCount : Nat
deriving DecidableEq, Repr

/-- Result of `tracker.processFrameCandidates` / `tracker.flush`:
lists of newly confirmed and closed tracks. -/
structure TrackerResult where
  newTracks : List TrackedPlateCandidate
  closedTracks : List TrackedPlateCandidate
deriving DecidableEq, Repr

/-! ## Filename sanitizer (`SimpleLPRTracker._sanitize_filename`) -/

/-- The invalid filename characters of the Python source, in source order. -/
def invalidChars : List Char := ['<', '>', ':', '"', '/', '\\', '|', '?', '*']

/-- One step of the Python loop `sanitized = sanitized.replace(char, sep)`. -/
def replaceChar (s : List Char) (c : Char) : List Char :=
  s.map (fun x => if x = c then '_' else x)

/-- Embedding of `_sanitize_filename`: replace each invalid character with an
underscore, truncate to 50 characters, map the empty result to "unknown". -/
def sanitize_filename (text : String) : String :=
  let sanitized : List Char := invalidChars.foldl replaceChar text.data
  let limited : List Char := sanitized.take 50
  if limited.isEmpty then "unknown" else String.mk limited

/-- Pointwise form of the whole replacement loop. -/
def replAll (x : Char) : Char := if x ∈ invalidChars then '_' else x

theorem foldl_replaceChar_eq (cs : List Char) (hcs : '_' ∉ cs) (s : List Char) :
    cs.foldl replaceChar s = s.map (fun x => if x ∈ cs then '_' else x) := by
  induction cs generalizing s with
  | nil => simp [List.foldl]
  | cons c cs ih =>
    have hu : '_' ∉ cs := fun h => hcs (List.mem_cons_of_mem _ h)
    have hc : ('_' : Char) ≠ c := fun h => hcs (h ▸ List.mem_cons_self _ _)
    rw [List.foldl_cons, ih hu]
    unfold replaceChar
    rw [List.map_map]
    apply List.map_congr_left
    intro x _
    simp only [Function.comp_apply]
    by_cases hxc : x = c
    · subst hxc
      simp [hu]
    · simp only [if_neg hxc, List.mem_cons]
      by_cases hxs : x ∈ cs
      · simp [hxs]
      · simp [hxs, hxc]

theorem sanitize_filename_eq (text : String) :
    sanitize_filename text =
      if ((text.data.map replAll).take 50).isEmpty then "unknown"
      else String.mk ((text.data.map replAll).take 50) := by
  unfold sanitize_filename
  rw [foldl_replaceChar_eq invalidChars (by decide) text.data]
  rfl

/-! ## JSON values (the tree-level schema of the persisted records) -/

/-- JSON value tree. The Python code persists through `json.dump`; the spec
places the textual encoding out of scope, so records are modelled at the
level of the JSON object tree. -/
inductive Json where
  | null : Json
  | bool (b : Bool) : Json
  | str (s : String) : Json
  | int (n : Int) : Json
  | num (q : ℚ) : Json
  | arr (elems : List Json) : Json
  | obj (fields : List (String × Json)) : Json

/-- Field lookup on a JSON object (first binding wins, as in a Python dict
built from distinct literal keys). -/
def jGet (j : Json) (key : String) : Option Json :=
  match j with
  | Json.obj fields => fields.lookup key
  | _ => none

/-- Two-level field lookup. -/
def jGet2 (j : Json) (k1 k2 : String) : Option Json :=
  (jGet j k1).bind (fun x => jGet x k2)

/-! ## TrackResult dataclass and the persisted JSON record -/

/-- Embedding of the `TrackResult` dataclass. -/
structure TrackResult where
  track_id : Nat
  plate_text : String
  country : String
  country_iso : String
  confidence : ℚ
  first_frame_id : Int
  first_timestamp : ℚ
  last_frame_id : Int
  last_timestamp : ℚ
  representative_frame_id : Int
  representative_timestamp : ℚ
  duration_seconds : ℚ
  total_frames : Int
  thumbnail_path : Option String := none
  json_path : Option String := none
  match_details : Option Json := none

/-- JSON encoding of a bounding box, as in `_extract_match_details`. -/
def rectJson (r : Rect) : Json :=
  Json.obj [("left", Json.int r.left), ("top", Json.int r.top),
            ("width", Json.int r.width), ("height", Json.int r.height)]

/-- JSON encoding of one glyph element. -/
def glyphElemJson (e : GlyphElem) : Json :=
  Json.obj [("glyph", Json.str e.glyph), ("confidence", Json.num e.confidence),
            ("boundingBox", rectJson e.boundingBox)]

/-- JSON encoding of one match; `isRawText` is `not bool(match.countryISO)`,
i.e. whether the ISO code is the empty string. -/
def matchJson (m : PlateMatch) : Json :=
  Json.obj [("text", Json.str m.text),
            ("country", Json.str m.country),
            ("countryISO", Json.str m.countryISO),
            ("confidence", Json.num m.confidence),
            ("isRawText", Json.bool (m.countryISO = "")),
            ("elements", Json.arr (m.elements.map glyphElemJson))]

/-- Embedding of `_extract_match_details`. -/
def extract_match_details (candidate : Candidate) : Json :=
  Json.obj [
    ("brightBackground", Json.bool candidate.darkOnLight),
    ("plateDetectionConfidence", Json.num candidate.plateDetectionConfidence),
    ("boundingBox", rectJson candidate.boundingBox),
    ("plateRegionVertices",
      Json.arr (candidate.plateRegionVertices.map
        (fun v => Json.obj [("x", Json.int v.x), ("y", Json.int v.y)]))),
    ("matches", Json.arr (candidate.matches'.map matchJson))]

/-- A `None`-able string, as written by `json.dump` (`null` for `None`). -/
def optStrJson : Option String → Json
  | some s => Json.str s
  | none => Json.null

/-- Embedding of `_save_track_json`: the exact JSON object written for one
closed, confirmed track (file I/O abstracted to the produced tree). -/
def save_track_json (track : TrackResult) : Json :=
  Json.obj [
    ("metadata", Json.obj [
      ("trackId", Json.int (Int.ofNat track.track_id)),
      ("firstDetectionFrameId", Json.int track.first_frame_id),
      ("firstDetectionTimestamp", Json.num track.first_timestamp),
      ("lastDetectionFrameId", Json.int track.last_frame_id),
      ("lastDetectionTimestamp", Json.num track.last_timestamp),
      ("representativeFrameId", Json.int track.representative_frame_id),
      ("representativeTimestamp", Json.num track.representative_timestamp),
      ("durationSeconds", Json.num track.duration_seconds),
      ("totalFrames", Json.int track.total_frames),
      ("thumbnailPath", optStrJson track.thumbnail_path)]),
    ("recognition", Json.obj [
      ("plateText", Json.str track.plate_text),
      ("country", Json.str track.country),
      ("countryISO", Json.str track.country_iso),
      ("confidence", Json.num track.confidence)]),
    ("candidateDetails", match track.match_details with
      | some j => j
      | none => Json.null)]

/-- Reader for the persisted record: re-reads first/last frame id, plate
text and confidence from the metadata and recognition sections. -/
def read_track_record (j : Json) : Option (Int × Int × String × ℚ) :=
  match jGet2 j "metadata" "firstDetectionFrameId",
        jGet2 j "metadata" "lastDetectionFrameId",
        jGet2 j "recognition" "plateText",
        jGet2 j "recognition" "confidence" with
  | some (Json.int ff), some (Json.int lf), some (Json.str txt), some (Json.num c) =>
      some (ff, lf, txt, c)
  | _, _, _, _ => none

/-! ## Orchestrator state (`SimpleLPRTracker`) -/

/-- Mutable state of the orchestrator owned by the control thread: the local
FIFO correlation queue (`frame_queue` deque, append right / popleft left),
the track counter, the accumulated `TrackResult` list, plus ghost
observation logs: `trackerCalls` records each invocation of
`tracker.processFrameCandidates` as `(frame.sequenceNumber, frame.timestamp)`,
`filesWritten` the JSON/thumbnail files written, `warnings` the number of
logged warnings. -/
structure ProcState where
  frameQueue : List VideoFrame
  track_counter : Nat
  tracks : List TrackResult
  trackerCalls : List (Nat × ℚ)
  filesWritten : List String
  warnings : Nat

/-- Initial orchestrator state of a fresh `SimpleLPRTracker`. -/
def initProcState : ProcState :=
  { frameQueue := [], track_counter := 0, tracks := [],
    trackerCalls := [], filesWritten := [], warnings := 0 }

/-- The inclusive frame-id span computed in `_save_track_data`
(`frame_range = track.newestDetectionFrameId - track.firstDetectionFrameId + 1`). -/
def frame_range (track : TrackedPlateCandidate) : Int :=
  track.newestDetectionFrameId - track.firstDetectionFrameId + 1

/-- Base filename of a track's output files. The Python `:06d` zero padding
and `:.2f` decimal formatting are abstracted into a plain rendering of the
numbers; no claim depends on the digit layout. -/
def base_filename (track : TrackedPlateCandidate) (best : PlateMatch) : String :=
  "track_" ++ toString track.representativeFrameId ++ "_" ++
    toString track.representativeTimestamp.num ++ "d" ++
    toString track.representativeTimestamp.den ++ "_" ++
    sanitize_filename best.text

/-- The `TrackResult` constructed in `_save_track_data`; `counter` is the
already-incremented `track_counter`, `best` the first match of the
representative candidate. (`best_match.country or ""` is the identity on
strings, modelled as such.) -/
def mk_track_result (counter : Nat) (track : TrackedPlateCandidate)
    (best : PlateMatch) (thumbnail : Option String) (jsonFile : Option String) :
    TrackResult :=
  { track_id := counter
    plate_text := best.text
    country := best.country
    country_iso := best.countryISO
    confidence := best.confidence
    first_frame_id := track.firstDetectionFrameId
    first_timestamp := track.firstDetectionTimestamp
    last_frame_id := track.newestDetectionFrameId
    last_timestamp := track.newestDetectionTimestamp
    representative_frame_id := track.representativeFrameId
    representative_timestamp := track.representativeTimestamp
    duration_seconds := track.newestDetectionTimestamp - track.firstDetectionTimestamp
    total_frames := frame_range track
    thumbnail_path := thumbnail
    json_path := jsonFile
    match_details := some (extract_match_details track.representativeCandidate) }

/-- Embedding of `_save_track_data`: a track whose representative candidate
has no matches is only warned about (nothing written, nothing appended);
otherwise the thumbnail (when present) and the JSON record are written and
the `TrackResult` is appended to `tracks`. -/
def save_track_data (st : ProcState) (track : TrackedPlateCandidate) : ProcState :=
  match track.representativeCandidate.matches' with
  | [] => { st with warnings := st.warnings + 1 }
  | best :: _ =>
    let base := base_filename track best
    let thumbnail : Option String :=
      if track.hasThumbnail then some (base ++ ".jpg") else none
    let r := mk_track_result st.track_counter track best thumbnail (some (base ++ ".json"))
    { st with
      tracks := st.tracks ++ [r]
      filesWritten := st.filesWritten ++
        (match thumbnail with | some p => [p] | none => []) ++ [base ++ ".json"] }

/-- Embedding of `_process_tracker_result`: new tracks are only printed;
for each closed track the counter is incremented and `_save_track_data`
runs. (The Python `timestamp` parameter is unused by the body and omitted.) -/
def process_tracker_result (st : ProcState) (tr : TrackerResult) : ProcState :=
  tr.closedTracks.foldl
    (fun s track => save_track_data { s with track_counter := s.track_counter + 1 } track)
    st

/-- Embedding of `_process_result`. `tracker` is the external
`PlateCandidateTracker.processFrameCandidates` capability. Mirrors the
source exactly: empty queue means warn and return; otherwise the oldest
frame is popped unconditionally (no `requestId` comparison appears in the
source); an error result or an empty candidate list returns early without
touching the tracker. -/
def process_result (tracker : AnalysisResult → VideoFrame → TrackerResult)
    (result : AnalysisResult) (st : ProcState) : ProcState :=
  match st.frameQueue with
  | [] => { st with warnings := st.warnings + 1 }
  | frame :: rest =>
    let st1 := { st with frameQueue := rest }
    if result.errorInfo.isSome then st1
    else if result.candidates.isEmpty then st1
    else
      process_tracker_result
        { st1 with trackerCalls := st1.trackerCalls ++ [(frame.sequenceNumber, frame.timestamp)] }
        (tracker result frame)

/-- Embedding of `_process_pending_results`: the non-blocking poll loop is a
fold over the list of results the pool hands back before returning `None`. -/
def process_pending_results (tracker : AnalysisResult → VideoFrame → TrackerResult)
    (polled : List AnalysisResult) (st : ProcState) : ProcState :=
  polled.foldl (fun s r => process_result tracker r s) st

/-! ## Main loop (`SimpleLPRTracker.process_video`) -/

/-- One iteration's worth of external input to the loop body: either
`video_source.nextFrame()` returned `None` (`read_fail`), or it returned a
frame, `launchAnalyze` answered `submitOk`, and the subsequent non-blocking
poll loop handed back the results `polled`. -/
inductive LoopEvent where
  | read_fail : LoopEvent
  | frame_event (f : VideoFrame) (submitOk : Bool) (polled : List AnalysisResult) : LoopEvent

/-- Why the `while` loop stopped. `shutdown` means the loop condition saw
the `_shutdown_requested` flag set; `endOfFile` is the `break` on a file
source; `inputExhausted` marks the model's input script running out while
the loop would continue; `fatalError` models the re-raise of an unexpected
exception (line `raise` of the generic handler) — no reachable loop path
below produces it, matching the source. -/
inductive ExitReason where
  | shutdown : ExitReason
  | endOfFile : ExitReason
  | inputExhausted : ExitReason
  | fatalError (msg : String) : ExitReason
deriving DecidableEq, Repr

/-- Loop-local state: orchestrator state, `self.frame_count`, and the number
of `reconnect()` calls performed. -/
structure LoopState where
  st : ProcState
  frame_count : Nat
  reconnects : Nat

/-- Initial loop state of a fresh run. -/
def initLoopState : LoopState :=
  { st := initProcState, frame_count := 0, reconnects := 0 }

/-- Embedding of the `while not _shutdown_requested:` loop. The signal
handler sets the flag asynchronously; `shutdownAfter` is the number of
loop-condition checks that see it unset (the fuel). Per iteration, exactly
as in the source: a `None` frame triggers `reconnect()` and `continue` on a
live source and `break` on a file source; otherwise the frame count rises,
the frame is appended to the correlation deque, a failed `launchAnalyze`
removes it again with `frame_queue.pop()` (right pop) and continues, and a
successful one is followed by `_process_pending_results`. -/
def run_loop (tracker : AnalysisResult → VideoFrame → TrackerResult) (isLive : Bool) :
    Nat → List LoopEvent → LoopState → LoopState × ExitReason
  | 0, _, ls => (ls, ExitReason.shutdown)
  | _ + 1, [], ls => (ls, ExitReason.inputExhausted)
  | fuel + 1, LoopEvent.read_fail :: rest, ls =>
    if isLive then
      run_loop tracker isLive fuel rest { ls with reconnects := ls.reconnects + 1 }
    else (ls, ExitReason.endOfFile)
  | fuel + 1, LoopEvent.frame_event f ok polled :: rest, ls =>
    let ls1 : LoopState :=
      { ls with frame_count := ls.frame_count + 1,
                st := { ls.st with frameQueue := ls.st.frameQueue ++ [f] } }
    if ok then
      run_loop tracker isLive fuel rest
        { ls1 with st := process_pending_results tracker polled ls1.st }
    else
      run_loop tracker isLive fuel rest
        { ls1 with st := { ls1.st with frameQueue := ls1.st.frameQueue.dropLast } }

/-- Outcome of a whole `process_video` call. -/
structure RunResult where
  final : ProcState
  frame_count : Nat
  reconnects : Nat
  exitReason : ExitReason
  drainRan : Bool
  flushRan : Bool

/-- Embedding of `process_video`: the main loop followed by the source's
`if not _shutdown_requested:` block — the drain loop (block-polling until
`ongoingRequestCount` is zero; `drainPolled` is the script of results it
obtains) and the flush (`tracker.flush()`, modelled by `flushResult`, fed
to `_process_tracker_result`). When the loop exited because the shutdown
flag was set, that whole block is skipped. -/
def process_video (tracker : AnalysisResult → VideoFrame → TrackerResult)
    (flushResult : TrackerResult) (isLive : Bool) (shutdownAfter : Nat)
    (events : List LoopEvent) (drainPolled : List AnalysisResult) : RunResult :=
  let lr := run_loop tracker isLive shutdownAfter events initLoopState
  match lr.2 with
  | ExitReason.shutdown =>
      { final := lr.1.st, frame_count := lr.1.frame_count,
        reconnects := lr.1.reconnects, exitReason := ExitReason.shutdown,
        drainRan := false, flushRan := false }
  | reason =>
      let st1 := process_pending_results tracker drainPolled lr.1.st
      let st2 := process_tracker_result st1 flushResult
      { final := st2, frame_count := lr.1.frame_count,
        reconnects := lr.1.reconnects, exitReason := reason,
        drainRan := true, flushRan := true }

/-! ## Run summary (`SimpleLPRTracker.save_summary`) -/

/-- One entry of the summary's `tracks` array. -/
def track_summary_entry (track : TrackResult) : Json :=
  Json.obj [("trackId", Json.int (Int.ofNat track.track_id)),
            ("plateText", Json.str track.plate_text),
            ("country", Json.str track.country),
            ("confidence", Json.num track.confidence),
            ("durationSeconds", Json.num track.duration_seconds),
            ("totalFrames", Json.int track.total_frames),
            ("jsonFile", optStrJson track.json_path),
            ("thumbnailFile", optStrJson track.thumbnail_path)]

/-- Embedding of `save_summary`: the summary JSON object. Wall-clock data
(`elapsed`, ISO timestamp `now`) and configuration enter as parameters. -/
def save_summary (st : ProcState) (frame_count : Nat) (elapsed : ℚ) (now : String)
    (videoSource country : String) (cfgTrigger cfgIdle : ℚ) (cfgMinFrames : Nat) : Json :=
  Json.obj [
    ("processingInfo", Json.obj [
      ("videoSource", Json.str videoSource),
      ("country", Json.str country),
      ("processingTime", Json.num elapsed),
      ("totalFrames", Json.int (Int.ofNat frame_count)),
      ("averageFPS", Json.num (if 0 < elapsed then (frame_count : ℚ) / elapsed else 0)),
      ("totalTracks", Json.int (Int.ofNat st.track_counter)),
      ("timestamp", Json.str now)]),
    ("trackingParameters", Json.obj [
      ("triggerWindowSec", Json.num cfgTrigger),
      ("maxIdleTimeSec", Json.num cfgIdle),
      ("minTriggerFrameCount", Json.int (Int.ofNat cfgMinFrames))]),
    ("tracks", Json.arr (st.tracks.map track_summary_entry))]

/-! ## Startup and exit codes (both programs) -/

/-- Embedding of `_configure_countries`. The engine's by-name
`set_countryWeight` raises for an identifier that is not a supported
country name (the source relies on exactly that via its `try`); the code
then retries the identifier with `int(self.config.country_id)`, accepting
a converted index when `0 <= idx < numSupportedCountries`, and otherwise
raises `ValueError("Invalid country identifier: ...")`. `supported` is the
list of supported country names. CPython's `int()` (which strips
surrounding whitespace and accepts underscore digit separators and
non-ASCII decimal digits) is external to this repository; its outcome on
`country_id` enters as the oracle argument `int_result`: `some idx` when
`int(country_id)` returns `idx`, `none` when it raises `ValueError`. -/
def configure_countries (supported : List String) (country_id : String)
    (int_result : Option Int) : Except String Unit :=
  if country_id ∈ supported then Except.ok ()
  else
    match int_result with
    | some idx =>
        if 0 ≤ idx ∧ idx < (supported.length : Int) then Except.ok ()
        else Except.error ("Invalid country identifier: " ++ country_id)
    | none => Except.error ("Invalid country identifier: " ++ country_id)

/-- Embedding of `initialize_engine` (key handling then country
configuration): a provided but missing product key file raises
`FileNotFoundError` before countries are configured. `int_result` is the
`int(country_id)` oracle passed through to `configure_countries`. -/
def init_engine (supported : List String) (product_key : Option String)
    (key_exists : Bool) (country_id : String) (int_result : Option Int) :
    Except String Unit :=
  match product_key with
  | some k =>
      if key_exists then configure_countries supported country_id int_result
      else Except.error ("Product key file not found: " ++ k)
  | none => configure_countries supported country_id int_result

/-- Embedding of `SimpleLPRTracker.run`: initialize engine, open the video
source, process video. A failure at any stage re-raises; the Bool records
whether `process_video` was reached. -/
def tracker_run (supported : List String) (product_key : Option String)
    (key_exists : Bool) (country_id : String) (int_result : Option Int)
    (openOk : Bool) : Except String Unit × Bool :=
  match init_engine supported product_key key_exists country_id int_result with
  | Except.error e => (Except.error e, false)
  | Except.ok _ =>
      if openOk then (Except.ok (), true)
      else (Except.error "Failed to open video source", false)

/-- Exit code of the tracking demo's `main`: an exception escaping
`tracker.run()` is caught and answered with `sys.exit(1)`. -/
def tracking_main_exit (run_outcome : Except String Unit) : Nat :=
  match run_outcome with
  | Except.error _ => 1
  | Except.ok _ => 0

/-- Exit code of the basic demo's `main` (`simplelpr_demo.py`): the whole
body sits in `try/except Exception` whose handler only prints the message,
after which `main` returns normally — the process exit code is 0 whether
the body raised or not. -/
def basic_main_exit (body_outcome : Except String Unit) : Nat :=
  match body_outcome with
  | Except.error _ => 0
  | Except.ok _ => 0

/-- Body of the basic demo's `analyze` command (`analyze_file`): the
library's by-name `set_countryWeight` raises for an unsupported country
identifier (no integer fallback here), and `set_productKey` raises for a
missing key file. -/
def basic_analyze (supported : List String) (country_id : String)
    (key_path : Option String) (key_exists : Bool) : Except String Unit :=
  if country_id ∈ supported then
    match key_path with
    | some k =>
        if key_exists then Except.ok ()
        else Except.error ("Key file not found: " ++ k)
    | none => Except.ok ()
  else Except.error ("Unknown country: " ++ country_id)

/-! ## Preservation lemmas about the orchestrator state -/

/-- A concrete trivial tracker oracle used in concrete runs: no track ever
confirms or closes. -/
def trivTracker : AnalysisResult → VideoFrame → TrackerResult :=
  fun _ _ => { newTracks := [], closedTracks := [] }

/-- A concrete candidate with one recognized match, reused across concrete
runs. -/
def cand1 : Candidate :=
  { darkOnLight := true
    plateDetectionConfidence := 9/10
    boundingBox := ⟨0, 0, 10, 5⟩
    plateRegionVertices := []
    matches' := [{ text := "ABC123", country := "Spain", countryISO := "ESP",
                   confidence := 95/100, elements := [] }] }

/-- A concrete candidate with an empty matches list. -/
def cand0 : Candidate :=
  { darkOnLight := false
    plateDetectionConfidence := 1/2
    boundingBox := ⟨1, 1, 8, 4⟩
    plateRegionVertices := []
    matches' := [] }

/-- A concrete closed track whose representative candidate has no matches. -/
def cx9_track : TrackedPlateCandidate :=
  { firstDetectionFrameId := 20
    firstDetectionTimestamp := 2
    newestDetectionFrameId := 25
    newestDetectionTimestamp := 5/2
    representativeFrameId := 22
    representativeTimestamp := 11/5
    representativeCandidate := cand0
    hasThumbnail := true
    specFrameCount := 4 }

theorem save_track_data_frameQueue (st : ProcState) (track : TrackedPlateCandidate) :
    (save_track_data st track).frameQueue = st.frameQueue := by
  unfold save_track_data
  cases track.representativeCandidate.matches' <;> rfl

theorem save_track_data_trackerCalls (st : ProcState) (track : TrackedPlateCandidate) :
    (save_track_data st track).trackerCalls = st.trackerCalls := by
  unfold save_track_data
  cases track.representativeCandidate.matches' <;> rfl

theorem save_track_data_track_counter (st : ProcState) (track : TrackedPlateCandidate) :
    (save_track_data st track).track_counter = st.track_counter := by
  unfold save_track_data
  cases track.representativeCandidate.matches' <;> rfl

theorem process_tracker_result_frameQueue (st : ProcState) (tr : TrackerResult) :
    (process_tracker_result st tr).frameQueue = st.frameQueue := by
  unfold process_tracker_result
  induction tr.closedTracks generalizing st with
  | nil => rfl
  | cons t ts ih =>
    rw [List.foldl_cons, ih]
    exact save_track_data_frameQueue _ t

theorem process_tracker_result_trackerCalls (st : ProcState) (tr : TrackerResult) :
    (process_tracker_result st tr).trackerCalls = st.trackerCalls := by
  unfold process_tracker_result
  induction tr.closedTracks generalizing st with
  | nil => rfl
  | cons t ts ih =>
    rw [List.foldl_cons, ih]
    exact save_track_data_trackerCalls _ t

theorem process_tracker_result_track_counter (st : ProcState) (tr : TrackerResult) :
    (process_tracker_result st tr).track_counter =
      st.track_counter + tr.closedTracks.length := by
  unfold process_tracker_result
  induction tr.closedTracks generalizing st with
  | nil => rfl
  | cons t ts ih =>
    rw [List.foldl_cons, ih, save_track_data_track_counter]
    simp [Nat.add_comm, Nat.add_assoc]
    omega

theorem process_result_frameQueue_tail (tracker : AnalysisResult → VideoFrame → TrackerResult)
    (result : AnalysisResult) (st : ProcState) (f : VideoFrame) (rest : List VideoFrame)
    (h : st.frameQueue = f :: rest) :
    (process_result tracker result st).frameQueue = rest := by
  unfold process_result
  rw [h]
  by_cases he : result.errorInfo.isSome
  · simp [he]
  · by_cases hc : result.candidates.isEmpty
    · simp [he, hc]
    · simp only [he, hc, if_false, Bool.false_eq_true]
      rw [process_tracker_result_frameQueue]

/-! ## Claim C2 -/

/-- Claim C2 (amended): `_process_result` performs no requestId comparison
and never aborts. With an empty correlation queue it only logs a warning
and discards the result; with a non-empty queue it unconditionally pops the
oldest frame and processes the result against that frame — the tracker is
invoked with the popped frame (when the result carries candidates and no
error) irrespective of whether `result.requestId` matches the frame's
sequence number. -/
theorem c2_no_requestid_comparison (tracker : AnalysisResult → VideoFrame → TrackerResult)
    (result : AnalysisResult) (st : ProcState) :
    (st.frameQueue = [] →
      process_result tracker result st = { st with warnings := st.warnings + 1 }) ∧
    (∀ f rest, st.frameQueue = f :: rest →
      (process_result tracker result st).frameQueue = rest ∧
      (process_result tracker result st).trackerCalls =
        st.trackerCalls ++
          (if result.errorInfo.isSome ∨ result.candidates.isEmpty then []
           else [(f.sequenceNumber, f.timestamp)])) := by
  constructor
  · intro h
    unfold process_result
    rw [h]
  · intro f rest h
    refine ⟨process_result_frameQueue_tail tracker result st f rest h, ?_⟩
    unfold process_result
    rw [h]
    by_cases he : result.errorInfo.isSome
    · simp [he]
    · by_cases hc : result.candidates.isEmpty
      · simp [he, hc]
      · simp only [he, hc, if_false, Bool.false_eq_true, or_self]
        rw [process_tracker_result_trackerCalls]

/-- Concrete mismatching inputs for C2: the queue's head is frame 3, the
polled result claims requestId 5. -/
def cx2_result : AnalysisResult :=
  { requestId := 5, errorInfo := none, candidates := [cand1] }

/-- Orchestrator state whose correlation queue head is frame 3. -/
def cx2_state : ProcState :=
  { initProcState with frameQueue := [⟨3, 2⟩] }

/-- Counterexample to C2 as stated: a result with requestId 5 arrives while
the queue head is frame 3; the run does not abort — the result is consumed
against frame 3 (the tracker is invoked with that pairing) and processing
continues with a well-defined successor state. An empty queue likewise only
logs a warning. -/
theorem c2_counterexample :
    cx2_result.requestId ≠ (3 : Nat) ∧
    (process_result trivTracker cx2_result cx2_state).trackerCalls = [(3, 2)] ∧
    (process_result trivTracker cx2_result cx2_state).frameQueue = [] ∧
    process_result trivTracker cx2_result initProcState =
      { initProcState with warnings := 1 } :=
  ⟨by decide, rfl, rfl, rfl⟩

/-- Witness for C2 at the concrete mismatching input. -/
theorem c2_no_requestid_comparison_witness :
    (process_result trivTracker cx2_result cx2_state).frameQueue = [] ∧
    (process_result trivTracker cx2_result cx2_state).trackerCalls =
      cx2_state.trackerCalls ++
        (if cx2_result.errorInfo.isSome ∨ cx2_result.candidates.isEmpty then []
         else [((3 : Nat), (2 : ℚ))]) :=
  (c2_no_requestid_comparison trivTracker cx2_result cx2_state).2 ⟨3, 2⟩ [] rfl

/-! ## Claim C3 -/

/-- Claim C3 (amended): the tracker — and with it the idle-timeout scan,
which lives inside the library's `processFrameCandidates` — is invoked for
a frame exactly when its result carries at least one candidate and no
error; a zero-candidate result returns early, leaving every piece of
tracker-visible state untouched, so no open track can be closed on a frame
whose analysis produced no candidates at all. -/
theorem c3_tracker_skipped_on_empty_candidates
    (tracker : AnalysisResult → VideoFrame → TrackerResult)
    (result : AnalysisResult) (st : ProcState) (f : VideoFrame) (rest : List VideoFrame)
    (h : st.frameQueue = f :: rest) :
    (result.candidates = [] →
      process_result tracker result st = { st with frameQueue := rest }) ∧
    (result.errorInfo = none → result.candidates ≠ [] →
      (process_result tracker result st).trackerCalls =
        st.trackerCalls ++ [(f.sequenceNumber, f.timestamp)]) := by
  constructor
  · intro hc
    unfold process_result
    rw [h]
    by_cases he : result.errorInfo.isSome
    · simp [he]
    · simp [he, hc]
  · intro he hc
    unfold process_result
    rw [h]
    have he' : result.errorInfo.isSome = false := by rw [he]; rfl
    have hc' : result.candidates.isEmpty = false := by
      cases hcs : result.candidates with
      | nil => exact absurd hcs hc
      | cons a as => rfl
    simp only [he', hc', Bool.false_eq_true, if_false]
    rw [process_tracker_result_trackerCalls]

/-- Concrete zero-candidate result and single-frame queue for C3. -/
def cx3_state : ProcState :=
  { initProcState with frameQueue := [⟨7, 3⟩] }

/-- Counterexample to C3 as stated: a frame whose analysis result has zero
candidates never reaches the tracker — `trackerCalls` stays empty and the
whole state change is popping the frame — so no open track is evaluated
against the idle timeout on that frame, and none can be closed there. -/
theorem c3_counterexample :
    (process_result trivTracker ⟨7, none, []⟩ cx3_state).trackerCalls = [] ∧
    process_result trivTracker ⟨7, none, []⟩ cx3_state =
      { cx3_state with frameQueue := [] } :=
  ⟨rfl, rfl⟩

/-- Witness for C3 at a concrete candidate-bearing input. -/
theorem c3_tracker_skipped_on_empty_candidates_witness :
    (process_result trivTracker ⟨7, none, [cand1]⟩ cx3_state).trackerCalls =
      cx3_state.trackerCalls ++ [((7 : Nat), (3 : ℚ))] :=
  (c3_tracker_skipped_on_empty_candidates trivTracker ⟨7, none, [cand1]⟩ cx3_state
    ⟨7, 3⟩ [] rfl).2 rfl (by simp [cand1])

/-! ## Claim C9 -/

/-- Claim C9: a closed track whose representative candidate has an empty
matches list still increments the track counter, but no JSON file or
thumbnail is written for it and no entry is appended to the tracks list;
consequently the summary's `totalTracks` (the counter) can exceed the
length of its `tracks` array. -/
theorem c9_unmatched_closed_track_counted_not_saved
    (st : ProcState) (track : TrackedPlateCandidate)
    (newTracks : List TrackedPlateCandidate)
    (fc : Nat) (elapsed : ℚ) (now vs country : String)
    (ct ci : ℚ) (mf : Nat)
    (h : track.representativeCandidate.matches' = []) :
    (process_tracker_result st ⟨newTracks, [track]⟩).track_counter =
      st.track_counter + 1 ∧
    (process_tracker_result st ⟨newTracks, [track]⟩).tracks = st.tracks ∧
    (process_tracker_result st ⟨newTracks, [track]⟩).filesWritten = st.filesWritten ∧
    jGet2 (save_summary (process_tracker_result st ⟨newTracks, [track]⟩)
        fc elapsed now vs country ct ci mf) "processingInfo" "totalTracks" =
      some (Json.int (Int.ofNat (st.track_counter + 1))) ∧
    jGet (save_summary (process_tracker_result st ⟨newTracks, [track]⟩)
        fc elapsed now vs country ct ci mf) "tracks" =
      some (Json.arr (st.tracks.map track_summary_entry)) ∧
    (st.tracks.length ≤ st.track_counter →
      (st.tracks.map track_summary_entry).length < st.track_counter + 1) := by
  have hred : process_tracker_result st ⟨newTracks, [track]⟩ =
      { st with track_counter := st.track_counter + 1, warnings := st.warnings + 1 } := by
    unfold process_tracker_result
    simp only [List.foldl_cons, List.foldl_nil]
    unfold save_track_data
    rw [h]
  rw [hred]
  refine ⟨rfl, rfl, rfl, rfl, rfl, ?_⟩
  intro hle
  rw [List.length_map]
  omega

/-- Witness for C9: with a fresh state and one unmatched closed track the
summary reports one track while its tracks array is empty. -/
theorem c9_unmatched_closed_track_counted_not_saved_witness :
    (process_tracker_result initProcState ⟨[], [cx9_track]⟩).track_counter = 1 ∧
    (process_tracker_result initProcState ⟨[], [cx9_track]⟩).tracks = [] ∧
    ([] : List TrackResult).map track_summary_entry = [] := by
  have h := c9_unmatched_closed_track_counted_not_saved initProcState cx9_track []
    0 1 "now" "src" "Spain" 3 2 3 rfl
  exact ⟨h.1, h.2.1, rfl⟩

/-! ## Claim C10 -/

/-- Claim C10: for every input string the filename sanitizer returns a
non-empty string of length at most 50 containing none of the invalid
characters; the result is exactly the input with every invalid character
replaced by an underscore, truncated to 50 characters, with the empty
outcome mapped to "unknown". -/
theorem c10_sanitize_filename_ok (t : String) :
    sanitize_filename t ≠ "" ∧
    (sanitize_filename t).length ≤ 50 ∧
    (∀ c, c ∈ invalidChars → c ∉ (sanitize_filename t).data) ∧
    sanitize_filename t =
      (if ((t.data.map replAll).take 50).isEmpty then "unknown"
       else String.mk ((t.data.map replAll).take 50)) := by
  have heq := sanitize_filename_eq t
  by_cases h : ((t.data.map replAll).take 50).isEmpty
  · rw [heq, if_pos h]
    refine ⟨by decide, by decide, ?_, rfl⟩
    intro c hc
    fin_cases hc <;> decide
  · rw [heq, if_neg h]
    refine ⟨?_, ?_, ?_, rfl⟩
    · intro hcontra
      apply h
      have hdata := congrArg String.data hcontra
      simp only [String.mk] at hdata
      simp [List.isEmpty_iff, hdata]
    · show ((t.data.map replAll).take 50).length ≤ 50
      rw [List.length_take]
      exact min_le_left _ _
    · intro c hc hmem
      have hmem' : c ∈ t.data.map replAll := List.mem_of_mem_take hmem
      rcases List.mem_map.mp hmem' with ⟨x, _, hx⟩
      unfold replAll at hx
      by_cases hxi : x ∈ invalidChars
      · rw [if_pos hxi] at hx
        subst hx
        revert hc
        decide
      · rw [if_neg hxi] at hx
        subst hx
        exact hxi hc

/-- Witness for C10 at the concrete input "a<b.mp4". -/
theorem c10_sanitize_filename_ok_witness :
    ('<' : Char) ∈ invalidChars ∧ '<' ∉ (sanitize_filename "a<b.mp4").data :=
  ⟨by decide, (c10_sanitize_filename_ok "a<b.mp4").2.2.1 '<' (by decide)⟩

/-! ## Claim C8 -/

/-- Claim C8: persisting a track to its JSON record and re-reading the
metadata and recognition sections reproduces the identical first frame id,
last frame id, plate text and confidence of the in-memory track. -/
theorem c8_track_record_round_trip (t : TrackResult) :
    read_track_record (save_track_json t) =
      some (t.first_frame_id, t.last_frame_id, t.plate_text, t.confidence) := rfl

/-! ## Claim C4 -/

/-- Claim C4 (amended): the persisted record's `totalFrames` field is the
inclusive span of frame ids, `newestDetectionFrameId -
firstDetectionFrameId + 1`, not the number of accumulated detections. -/
theorem c4_total_frames_is_frame_span (st : ProcState) (track : TrackedPlateCandidate)
    (best : PlateMatch) (others : List PlateMatch)
    (h : track.representativeCandidate.matches' = best :: others) :
    ∃ r : TrackResult,
      (save_track_data st track).tracks = st.tracks ++ [r] ∧
      r.total_frames = track.newestDetectionFrameId - track.firstDetectionFrameId + 1 ∧
      jGet2 (save_track_json r) "metadata" "totalFrames" =
        some (Json.int (track.newestDetectionFrameId - track.firstDetectionFrameId + 1)) := by
  refine ⟨mk_track_result st.track_counter track best
      (if track.hasThumbnail then some (base_filename track best ++ ".jpg") else none)
      (some (base_filename track best ++ ".json")), ?_, rfl, rfl⟩
  unfold save_track_data
  rw [h]

/-- Concrete track for the C4 scenario: the spec's example track accumulates
3 detections (t = 0.0, 0.5, 1.0) but spans frames 0 .. 10 of the video. -/
def cx4_track : TrackedPlateCandidate :=
  { firstDetectionFrameId := 0
    firstDetectionTimestamp := 0
    newestDetectionFrameId := 10
    newestDetectionTimestamp := 1
    representativeFrameId := 5
    representativeTimestamp := 1/2
    representativeCandidate := cand1
    hasThumbnail := false
    specFrameCount := 3 }

/-- Counterexample to C4 as stated: for a track with 3 accumulated
detections on frames 0 .. 10, the persisted total-frames value is the span
11, not the detection count 3. -/
theorem c4_counterexample :
    cx4_track.specFrameCount = 3 ∧
    ((save_track_data initProcState cx4_track).tracks.map
      (fun r => r.total_frames)) = [11] ∧
    (11 : Int) ≠ 3 :=
  ⟨rfl, rfl, by decide⟩

/-- Witness for C4 at the concrete scenario track. -/
theorem c4_total_frames_is_frame_span_witness :
    ∃ r : TrackResult,
      (save_track_data initProcState cx4_track).tracks = initProcState.tracks ++ [r] ∧
      r.total_frames = cx4_track.newestDetectionFrameId - cx4_track.firstDetectionFrameId + 1 ∧
      jGet2 (save_track_json r) "metadata" "totalFrames" =
        some (Json.int (cx4_track.newestDetectionFrameId - cx4_track.firstDetectionFrameId + 1)) :=
  c4_total_frames_is_frame_span initProcState cx4_track
    { text := "ABC123", country := "Spain", countryISO := "ESP",
      confidence := 95/100, elements := [] } [] rfl

/-! ## Claim C1 -/

/-- Claim C1 (amended): the source guards the drain and flush phases with
`if not _shutdown_requested:`, so they run after the loop exactly when the
shutdown flag was NOT set at loop exit. A shutdown requested mid-stream
exits without draining or flushing; a run that ends without the flag set
(for example end-of-file) performs both phases. -/
theorem c1_shutdown_skips_drain_and_flush
    (tracker : AnalysisResult → VideoFrame → TrackerResult)
    (flushResult : TrackerResult) (isLive : Bool) (shutdownAfter : Nat)
    (events : List LoopEvent) (drainPolled : List AnalysisResult) :
    ((process_video tracker flushResult isLive shutdownAfter events drainPolled).exitReason =
        ExitReason.shutdown →
      (process_video tracker flushResult isLive shutdownAfter events drainPolled).drainRan = false ∧
      (process_video tracker flushResult isLive shutdownAfter events drainPolled).flushRan = false) ∧
    ((process_video tracker flushResult isLive shutdownAfter events drainPolled).exitReason ≠
        ExitReason.shutdown →
      (process_video tracker flushResult isLive shutdownAfter events drainPolled).drainRan = true ∧
      (process_video tracker flushResult isLive shutdownAfter events drainPolled).flushRan = true) := by
  unfold process_video
  cases hr : (run_loop tracker isLive shutdownAfter events initLoopState).2 <;> simp [hr]

/-- Mid-stream shutdown script for C1: the flag is observed set after one
iteration, while a submitted frame's result is still pending and further
stream input remains. -/
def cx1_events : List LoopEvent :=
  [LoopEvent.frame_event ⟨0, 0⟩ true [], LoopEvent.frame_event ⟨1, 1/10⟩ true []]

/-- Counterexample to C1 as stated: with shutdown requested mid-stream the
run exits without the drain phase and without the flush phase; the pending
frame is still on the correlation queue, its completed result was never
consumed, and the confirmed in-flight track that `flush` would report is
never persisted (`tracks` stays empty). -/
theorem c1_counterexample :
    (process_video trivTracker ⟨[], [cx4_track]⟩ false 1 cx1_events
        [⟨0, none, [cand1]⟩]).exitReason = ExitReason.shutdown ∧
    (process_video trivTracker ⟨[], [cx4_track]⟩ false 1 cx1_events
        [⟨0, none, [cand1]⟩]).drainRan = false ∧
    (process_video trivTracker ⟨[], [cx4_track]⟩ false 1 cx1_events
        [⟨0, none, [cand1]⟩]).flushRan = false ∧
    (process_video trivTracker ⟨[], [cx4_track]⟩ false 1 cx1_events
        [⟨0, none, [cand1]⟩]).final.frameQueue = [⟨0, 0⟩] ∧
    (process_video trivTracker ⟨[], [cx4_track]⟩ false 1 cx1_events
        [⟨0, none, [cand1]⟩]).final.tracks = [] :=
  ⟨rfl, rfl, rfl, rfl, rfl⟩

/-- Witness for C1 at a concrete end-of-file run. -/
theorem c1_shutdown_skips_drain_and_flush_witness :
    (process_video trivTracker ⟨[], []⟩ false 5 [LoopEvent.read_fail] []).drainRan = true ∧
    (process_video trivTracker ⟨[], []⟩ false 5 [LoopEvent.read_fail] []).flushRan = true :=
  (c1_shutdown_skips_drain_and_flush trivTracker ⟨[], []⟩ false 5
    [LoopEvent.read_fail] []).2 (by decide)

/-! ## Claim C5 -/

theorem process_result_queue_not_mem (tracker : AnalysisResult → VideoFrame → TrackerResult)
    (r : AnalysisResult) (st : ProcState) (s : Nat)
    (h : s ∉ st.frameQueue.map VideoFrame.sequenceNumber) :
    s ∉ (process_result tracker r st).frameQueue.map VideoFrame.sequenceNumber := by
  cases hq : st.frameQueue with
  | nil =>
    unfold process_result
    rw [hq]
    simp [hq]
  | cons f rest =>
    rw [process_result_frameQueue_tail tracker r st f rest hq]
    rw [hq] at h
    simp only [List.map_cons, List.mem_cons] at h
    exact fun hm => h (Or.inr hm)

theorem process_pending_results_queue_not_mem
    (tracker : AnalysisResult → VideoFrame → TrackerResult)
    (polled : List AnalysisResult) (st : ProcState) (s : Nat)
    (h : s ∉ st.frameQueue.map VideoFrame.sequenceNumber) :
    s ∉ (process_pending_results tracker polled st).frameQueue.map
        VideoFrame.sequenceNumber := by
  induction polled generalizing st with
  | nil => exact h
  | cons r rs ih =>
    simp only [process_pending_results, List.foldl_cons] at *
    exact ih _ (process_result_queue_not_mem tracker r st s h)

/-- Claim C5: when `launchAnalyze` returns false the source immediately pops
the just-appended frame back off the correlation deque (`frame_queue.pop()`)
and continues. Hence, provided the failed frame's sequence number `s` is
fresh (not already queued) and — sequence numbers being unique per run —
every successfully submitted frame carries a different number, `s` is
absent from the correlation queue after the loop runs any event script;
applying the theorem to each prefix of the script gives absence at every
intermediate result-processing point, so the failed submission can never
produce a correlation mismatch later. -/
theorem c5_failed_submit_frame_never_queued
    (tracker : AnalysisResult → VideoFrame → TrackerResult) (isLive : Bool)
    (fuel : Nat) (events : List LoopEvent) (ls : LoopState) (s : Nat)
    (h0 : s ∉ ls.st.frameQueue.map VideoFrame.sequenceNumber)
    (h1 : ∀ f ok polled, LoopEvent.frame_event f ok polled ∈ events →
      f.sequenceNumber = s → ok = false) :
    s ∉ (run_loop tracker isLive fuel events ls).1.st.frameQueue.map
        VideoFrame.sequenceNumber := by
  induction fuel generalizing events ls with
  | zero => simpa [run_loop] using h0
  | succ k ih =>
    cases events with
    | nil => simpa [run_loop] using h0
    | cons e rest =>
      have h1' : ∀ g okg p, LoopEvent.frame_event g okg p ∈ rest →
          g.sequenceNumber = s → okg = false :=
        fun g okg p hm => h1 g okg p (List.mem_cons_of_mem _ hm)
      cases e with
      | read_fail =>
        simp only [run_loop]
        by_cases hl : isLive
        · rw [if_pos hl]
          exact ih rest _ h0 h1'
        · rw [if_neg hl]
          exact h0
      | frame_event f ok polled =>
        simp only [run_loop]
        by_cases hok : ok = true
        · rw [if_pos hok]
          have hne : f.sequenceNumber ≠ s := by
            intro hseq
            have hf := h1 f ok polled (List.mem_cons_self _ _) hseq
            rw [hf] at hok
            exact Bool.false_ne_true hok
          have hq : s ∉ ((ls.st.frameQueue ++ [f]).map VideoFrame.sequenceNumber) := by
            rw [List.map_append]
            intro hm
            rcases List.mem_append.mp hm with hm | hm
            · exact h0 hm
            · simp only [List.map_cons, List.map_nil, List.mem_singleton] at hm
              exact hne hm.symm
          exact ih rest _ (process_pending_results_queue_not_mem tracker polled _ s hq) h1'
        · rw [if_neg hok]
          have hdrop : ((ls.st.frameQueue ++ [f]).dropLast) = ls.st.frameQueue := by
            simp
          exact ih rest _ (by simpa [hdrop] using h0) h1'

/-- Witness for C5: a single frame with sequence number 5 whose submission
fails is absent from the queue at the end of the run. -/
theorem c5_failed_submit_frame_never_queued_witness :
    (5 : Nat) ∉ ((run_loop trivTracker false 3
        [LoopEvent.frame_event ⟨5, 0⟩ false []] initLoopState).1.st.frameQueue.map
          VideoFrame.sequenceNumber) :=
  c5_failed_submit_frame_never_queued trivTracker false 3
    [LoopEvent.frame_event ⟨5, 0⟩ false []] initLoopState 5
    (by simp [initLoopState, initProcState])
    (by
      intro f ok p hm _
      have h := List.mem_singleton.mp hm
      cases h
      rfl)

/-! ## Claim C6 -/

theorem run_loop_live_read_fail (tracker : AnalysisResult → VideoFrame → TrackerResult)
    (n : Nat) (ls : LoopState) :
    run_loop tracker true (n + 1) (List.replicate n LoopEvent.read_fail) ls =
      ({ ls with reconnects := ls.reconnects + n }, ExitReason.inputExhausted) := by
  induction n generalizing ls with
  | zero => rfl
  | succ k ih =>
    obtain ⟨lst, lfc, lrc⟩ := ls
    rw [List.replicate_succ]
    show run_loop tracker true (k + 1) (List.replicate k LoopEvent.read_fail)
        ⟨lst, lfc, lrc + 1⟩ =
      (⟨lst, lfc, lrc + (k + 1)⟩, ExitReason.inputExhausted)
    rw [ih]
    dsimp only
    have harith : lrc + 1 + k = lrc + (k + 1) := by omega
    rw [harith]

/-- Claim C6 (amended): a live-source read failure triggers reconnect and
retry with no retry bound: after any number n of consecutive failed reads
the loop has performed exactly n reconnects, is otherwise unchanged, and
has surfaced no error of any kind. On a file source a failed read ends the
loop normally (`endOfFile`) and the drain and flush phases still run. -/
theorem c6_live_reconnect_unbounded_file_eof_normal
    (tracker : AnalysisResult → VideoFrame → TrackerResult) (n : Nat) (ls : LoopState)
    (flushResult : TrackerResult) (fuel : Nat) (events : List LoopEvent)
    (drainPolled : List AnalysisResult) :
    run_loop tracker true (n + 1) (List.replicate n LoopEvent.read_fail) ls =
      ({ ls with reconnects := ls.reconnects + n }, ExitReason.inputExhausted) ∧
    run_loop tracker false (fuel + 1) (LoopEvent.read_fail :: events) ls =
      (ls, ExitReason.endOfFile) ∧
    (process_video tracker flushResult false (fuel + 1)
        (LoopEvent.read_fail :: events) drainPolled).exitReason = ExitReason.endOfFile ∧
    (process_video tracker flushResult false (fuel + 1)
        (LoopEvent.read_fail :: events) drainPolled).drainRan = true ∧
    (process_video tracker flushResult false (fuel + 1)
        (LoopEvent.read_fail :: events) drainPolled).flushRan = true :=
  ⟨run_loop_live_read_fail tracker n ls, rfl, rfl, rfl, rfl⟩

/-- Counterexample to C6 as stated: after 300 consecutive failed reads from
a live source the loop is still only reconnecting and retrying (300
reconnect calls, state otherwise intact) and has surfaced no error; indeed
no number of consecutive read failures ever yields a fatal stream error —
the retry loop is unbounded. -/
theorem c6_counterexample :
    (run_loop trivTracker true 301 (List.replicate 300 LoopEvent.read_fail)
        initLoopState).1.reconnects = 300 ∧
    (run_loop trivTracker true 301 (List.replicate 300 LoopEvent.read_fail)
        initLoopState).2 = ExitReason.inputExhausted ∧
    ¬ ∃ (n : Nat) (msg : String),
        (run_loop trivTracker true (n + 1) (List.replicate n LoopEvent.read_fail)
          initLoopState).2 = ExitReason.fatalError msg := by
  refine ⟨?_, ?_, ?_⟩
  · rw [run_loop_live_read_fail]
    rfl
  · rw [run_loop_live_read_fail]
  · rintro ⟨n, msg, h⟩
    rw [run_loop_live_read_fail] at h
    exact ExitReason.noConfusion h

/-! ## Claim C7 -/

/-- Claim C7 (amended): in the tracking demo an unresolvable country
identifier — not a supported name, and one CPython's `int()` (whose outcome
is the oracle `int_result`) fails to convert or converts to an out-of-range
index — or a provided-but-missing product key file makes startup fail
before `process_video` is ever reached, and the process exits with code 1;
the basic demo (`simplelpr_demo.py`), whose `main` catches every exception
and only prints it, exits with code 0 on the same failures. -/
theorem c7_startup_rejection_exit_codes (supported : List String) (cid : String)
    (int_result : Option Int) (openOk : Bool)
    (hname : cid ∉ supported)
    (hidx : ∀ idx : Int, int_result = some idx →
      ¬ (0 ≤ idx ∧ idx < (supported.length : Int))) :
    (tracking_main_exit (tracker_run supported none true cid int_result openOk).1 = 1 ∧
      (tracker_run supported none true cid int_result openOk).2 = false) ∧
    (∀ cid2 int2 k,
      tracking_main_exit (tracker_run supported (some k) false cid2 int2 openOk).1 = 1 ∧
      (tracker_run supported (some k) false cid2 int2 openOk).2 = false) ∧
    (∀ kp ke, basic_main_exit (basic_analyze supported cid kp ke) = 0) := by
  have hcfg : configure_countries supported cid int_result =
      Except.error ("Invalid country identifier: " ++ cid) := by
    unfold configure_countries
    rw [if_neg hname]
    cases hti : int_result with
    | none => rfl
    | some idx =>
      show (if 0 ≤ idx ∧ idx < (supported.length : Int) then Except.ok ()
            else Except.error ("Invalid country identifier: " ++ cid)) =
        Except.error ("Invalid country identifier: " ++ cid)
      rw [if_neg (hidx idx hti)]
  refine ⟨?_, ?_, ?_⟩
  · have : tracker_run supported none true cid int_result openOk =
        (Except.error ("Invalid country identifier: " ++ cid), false) := by
      unfold tracker_run init_engine
      rw [hcfg]
    rw [this]
    exact ⟨rfl, rfl⟩
  · intro cid2 int2 k
    exact ⟨rfl, rfl⟩
  · intro kp ke
    cases hb : basic_analyze supported cid kp ke <;> rfl

/-- Counterexample to C7 as stated: the basic demo exits with code 0, not a
non-zero code, when the country identifier is invalid — its top-level
handler catches the error and `main` returns normally. -/
theorem c7_counterexample :
    basic_analyze ["Spain", "Germany"] "Atlantis" none true =
      Except.error "Unknown country: Atlantis" ∧
    basic_main_exit (basic_analyze ["Spain", "Germany"] "Atlantis" none true) = 0 ∧
    (0 : Nat) ≠ 1 :=
  ⟨rfl, rfl, by decide⟩

/-- Witness for C7 at the concrete invalid identifier "Atlantis", for which
CPython's `int()` raises `ValueError` (oracle outcome `none`). -/
theorem c7_startup_rejection_exit_codes_witness :
    tracking_main_exit (tracker_run ["Spain", "Germany"] none true "Atlantis" none true).1 = 1 ∧
    (tracker_run ["Spain", "Germany"] none true "Atlantis" none true).2 = false :=
  (c7_startup_rejection_exit_codes ["Spain", "Germany"] "Atlantis" none true
    (by decide)
    (fun idx h => Option.noConfusion h)).1

end SLPR
